import Mathlib

/-!
Shallow embedding of the survey_form_go service core (main.go): the data
model (surveys, survey_responses tables), the validation rules, the
24-hour editability policy, and the HTTP handler logic of
`getSurveys`, `createSurvey`, `getSurveyResponse`, `createSurveyResponse`,
`updateSurveyResponse` and `getUserResponses`, translated to pure
functions over an explicit store state.  Time is modelled in integer
nanoseconds, matching Go's `time.Duration`; `len` on Go strings is byte
length, modelled by `String.utf8ByteSize`.
-/

namespace SurveyForm

/-- Nanoseconds per second: Go's `time.Second`. -/
def secondNs : Int := 1000000000

/-- Go's `time.Minute = 60 * time.Second`. -/
def minuteNs : Int := 60 * secondNs

/-- Go's `time.Hour = 60 * time.Minute`. -/
def hourNs : Int := 60 * minuteNs

/-- The editability policy: `time.Since(createdAt) < 24*time.Hour`, i.e.
`now - createdAt < 24h`, the expression used at the read sites
(`getSurveyResponse` line 437, `getSurveyResponses` line 379,
`getUserResponses` line 678, `updateSurveyResponse` line 633). -/
def isEditable (createdAt now : Int) : Bool := now - createdAt < 24 * hourNs

/-- A row of the `surveys` table (columns of the DDL in `initDatabase`). -/
structure SurveyRow where
  id : Nat
  title : String
  description : String
  createdAt : Int
  updatedAt : Int
deriving Repr, DecidableEq

/-- A row of the `survey_responses` table.  `responseData` is the opaque
JSON text stored verbatim; the column is declared `TEXT NOT NULL`. -/
structure ResponseRow where
  id : Nat
  surveyId : Nat
  userIdentifier : String
  responseData : String
  createdAt : Int
  updatedAt : Int
deriving Repr, DecidableEq

/-- The SQLite database state: both tables plus the AUTOINCREMENT
counters that assign fresh primary keys. -/
structure Store where
  surveys : List SurveyRow
  responses : List ResponseRow
  nextSurveyId : Nat
  nextResponseId : Nat
deriving Repr, DecidableEq

/-- The Go `Survey` struct as serialized to clients: a survey row
together with the scanned `responses_count` aggregate. -/
structure Survey where
  id : Nat
  title : String
  description : String
  createdAt : Int
  updatedAt : Int
  responsesCount : Nat
deriving Repr, DecidableEq

/-- The Go `SurveyResponse` struct as serialized to clients: a response
row together with the computed `editable` flag. -/
structure SurveyResponse where
  id : Nat
  surveyId : Nat
  userIdentifier : String
  responseData : String
  createdAt : Int
  updatedAt : Int
  editable : Bool
deriving Repr, DecidableEq

/-- The Go `UserResponse` struct: a response joined with its parent
survey's `id`, `title`, `description` (the only survey columns scanned
in `getUserResponses`). -/
structure UserResponse where
  id : Nat
  surveyId : Nat
  surveyTitle : String
  surveyDescription : String
  userIdentifier : String
  responseData : String
  createdAt : Int
  updatedAt : Int
  editable : Bool
deriving Repr, DecidableEq

/-- Tagged failures of the service operations: HTTP 404 (`notFound`),
400 structural bind failure (`parseFailure`), 422 with collected
messages (`validationFailed`), the 422 edit-window rejection
(`editWindowExpired`), and a persistence-layer failure (`storeError`). -/
inductive SvcError where
  | notFound
  | parseFailure
  | validationFailed (messages : List String)
  | editWindowExpired
  | storeError
deriving Repr, DecidableEq

/-- An incoming request body before `ShouldBindJSON`: either not
well-formed JSON (`malformed`) or a decoded body value. -/
inductive Payload (α : Type) where
  | malformed
  | wellFormed (body : α)
deriving Repr, DecidableEq

/-- `SELECT ... FROM surveys WHERE id = ?` (first matching row). -/
def findSurvey (st : Store) (sid : Nat) : Option SurveyRow :=
  st.surveys.find? (fun s => s.id = sid)

/-- `SELECT EXISTS(SELECT 1 FROM surveys WHERE id = ?)`. -/
def surveyExists (st : Store) (sid : Nat) : Bool :=
  st.surveys.any (fun s => s.id = sid)

/-- `SELECT ... FROM survey_responses WHERE id = ? AND survey_id = ?`
(first matching row). -/
def findResponse (st : Store) (sid rid : Nat) : Option ResponseRow :=
  st.responses.find? (fun r => r.id = rid && r.surveyId = sid)

/-- `COUNT(sr.id)` of the responses referencing survey `sid`. -/
def responsesCount (st : Store) (sid : Nat) : Nat :=
  (st.responses.filter (fun r => r.surveyId = sid)).length

/-- Build the serialized `SurveyResponse` from a row, computing
`Editable = time.Since(CreatedAt) < 24*time.Hour`. -/
def responseView (r : ResponseRow) (now : Int) : SurveyResponse :=
  { id := r.id, surveyId := r.surveyId, userIdentifier := r.userIdentifier,
    responseData := r.responseData, createdAt := r.createdAt,
    updatedAt := r.updatedAt, editable := isEditable r.createdAt now }

/-- The store after a service call: the new store on success, the
untouched store on any tagged failure (every error path in the handlers
returns before reaching, or instead of completing, a write). -/
def resultStore (st : Store) (res : Except SvcError (Store × β)) : Store :=
  match res with
  | .ok (st', _) => st'
  | .error _ => st

/-- `ORDER BY key DESC`: list sorted so that the key is non-increasing. -/
def keyGe (key : α → Int) (a b : α) : Prop := key b ≤ key a

instance (key : α → Int) : DecidableRel (keyGe key) :=
  fun _ _ => Int.decLe _ _

instance (key : α → Int) : IsTotal α (keyGe key) :=
  ⟨fun a b => le_total (key b) (key a)⟩

instance (key : α → Int) : IsTrans α (keyGe key) :=
  ⟨fun _ _ _ hab hbc => le_trans hbc hab⟩

/-- `ORDER BY key DESC` over a result set. -/
def sortByKeyDesc (key : α → Int) (l : List α) : List α :=
  l.insertionSort (keyGe key)

/-- The Validation Engine for `createSurvey` (lines 270-280): each
check appends its message independently; Go `len` is byte length. -/
def validateSurvey (title description : String) : List String :=
  (if title.utf8ByteSize < 3 then ["Title must be at least 3 characters long"] else [])
    ++ (if 255 < title.utf8ByteSize then ["Title must be less than 255 characters"] else [])
    ++ (if 1000 < description.utf8ByteSize then ["Description must be less than 1000 characters"] else [])

/-- The Validation Engine for `createSurveyResponse` (lines 480-486). -/
def validateResponseCreate (userIdentifier : String) : List String :=
  (if userIdentifier.utf8ByteSize < 3 then ["User identifier must be at least 3 characters long"] else [])
    ++ (if 100 < userIdentifier.utf8ByteSize then ["User identifier must be less than 100 characters"] else [])

/-- Handler `getSurveys`: LEFT JOIN count per survey, GROUP BY s.id,
ORDER BY s.created_at DESC; zero-response surveys get count 0. -/
def getSurveys (st : Store) : List Survey :=
  (sortByKeyDesc SurveyRow.createdAt st.surveys).map (fun s =>
    { id := s.id, title := s.title, description := s.description,
      createdAt := s.createdAt, updatedAt := s.updatedAt,
      responsesCount := responsesCount st s.id })

/-- Handler `createSurvey` (lines 259-325).  `ShouldBindJSON` with
`binding:"required"` rejects a malformed body and also an empty `title`
or `description` (the validator's `required` tag fails on a zero-value
string); then the Validation Engine runs; on violations nothing is
written; otherwise a row is inserted with both timestamps `now` and the
re-fetch hardcodes `0 as responses_count`. -/
def createSurvey (st : Store) (now : Int) (payload : Payload (String × String)) :
    Except SvcError (Store × Survey) :=
  match payload with
  | .malformed => .error .parseFailure
  | .wellFormed (title, description) =>
    if title = "" ∨ description = "" then .error .parseFailure
    else
      let errors := validateSurvey title description
      if errors.isEmpty then
        let row : SurveyRow :=
          { id := st.nextSurveyId, title := title, description := description,
            createdAt := now, updatedAt := now }
        .ok ({ st with surveys := st.surveys ++ [row],
                       nextSurveyId := st.nextSurveyId + 1 },
             { id := row.id, title := title, description := description,
               createdAt := now, updatedAt := now, responsesCount := 0 })
      else .error (.validationFailed errors)

/-- Handler `getSurveyResponse` (lines 390-443): survey-scoped lookup
`WHERE id = ? AND survey_id = ?`, then the `editable` flag is computed. -/
def getSurveyResponse (st : Store) (now : Int) (sid rid : Nat) :
    Except SvcError SurveyResponse :=
  match findResponse st sid rid with
  | none => .error .notFound
  | some r => .ok (responseView r now)

/-- Handler `createSurveyResponse` (lines 446-533).  The survey
existence check runs first (lines 458-467), before `ShouldBindJSON`
(line 470) and before validation.  `binding:"required"` rejects an empty
`user_identifier` and an absent `response_data`.  On success a row is
inserted with both timestamps `now` and the result carries
`Editable = true` (line 526 sets it unconditionally). -/
def createSurveyResponse (st : Store) (now : Int) (sid : Nat)
    (payload : Payload (String × Option String)) :
    Except SvcError (Store × SurveyResponse) :=
  if surveyExists st sid then
    match payload with
    | .malformed => .error .parseFailure
    | .wellFormed (userIdentifier, responseData?) =>
      if userIdentifier = "" then .error .parseFailure
      else
        match responseData? with
        | none => .error .parseFailure
        | some responseData =>
          let errors := validateResponseCreate userIdentifier
          if errors.isEmpty then
            let row : ResponseRow :=
              { id := st.nextResponseId, surveyId := sid,
                userIdentifier := userIdentifier, responseData := responseData,
                createdAt := now, updatedAt := now }
            .ok ({ st with responses := st.responses ++ [row],
                           nextResponseId := st.nextResponseId + 1 },
                 { id := row.id, surveyId := sid, userIdentifier := userIdentifier,
                   responseData := responseData, createdAt := now,
                   updatedAt := now, editable := true })
          else .error (.validationFailed errors)
  else .error .notFound

/-- The `UPDATE survey_responses SET response_data = ?, updated_at =
CURRENT_TIMESTAMP WHERE id = ? AND survey_id = ?` statement (lines
604-608).  The handler binds `req.SurveyResponse.ResponseData`
unconditionally; when that `json.RawMessage` is nil (no value supplied)
the driver binds SQL NULL, and the `response_data TEXT NOT NULL`
constraint from `initDatabase` makes the statement fail with a store
error, changing no row. -/
def execUpdateResponse (st : Store) (sid rid : Nat) (val : Option String)
    (now : Int) : Except SvcError Store :=
  match val with
  | none => .error .storeError
  | some v =>
    .ok { st with responses := st.responses.map (fun r =>
      if r.id = rid && r.surveyId = sid then
        { r with responseData := v, updatedAt := now }
      else r) }

/-- Handler `updateSurveyResponse` (lines 536-640).  Flow: survey-scoped
fetch (`NotFound` if absent); then the edit-window check
`time.Since(CreatedAt) >= 24*time.Hour` rejects (lines 584-591) BEFORE
the body is parsed (lines 593-601); then the UPDATE statement runs, and
the row is re-fetched by `WHERE id = ?` alone (line 621) with a fresh
`editable` flag. -/
def updateSurveyResponse (st : Store) (now : Int) (sid rid : Nat)
    (payload : Payload (Option String)) :
    Except SvcError (Store × SurveyResponse) :=
  match findResponse st sid rid with
  | none => .error .notFound
  | some r =>
    if 24 * hourNs ≤ now - r.createdAt then .error .editWindowExpired
    else
      match payload with
      | .malformed => .error .parseFailure
      | .wellFormed responseData? =>
        match execUpdateResponse st sid rid responseData? now with
        | .error e => .error e
        | .ok st' =>
          match st'.responses.find? (fun x => x.id = rid) with
          | none => .error .storeError
          | some r' => .ok (st', responseView r' now)

/-- The result set of the `getUserResponses` query: the inner
`JOIN surveys ON sr.survey_id = s.id`, `WHERE sr.user_identifier = ?`
(exact string comparison), `ORDER BY sr.updated_at DESC`. -/
def userResponsesQuery (st : Store) (now : Int) (uid : String) :
    List UserResponse :=
  (sortByKeyDesc ResponseRow.updatedAt
      (st.responses.filter (fun r => r.userIdentifier = uid))).filterMap
    (fun r => (findSurvey st r.surveyId).map (fun s =>
      { id := r.id, surveyId := s.id, surveyTitle := s.title,
        surveyDescription := s.description,
        userIdentifier := r.userIdentifier, responseData := r.responseData,
        createdAt := r.createdAt, updatedAt := r.updatedAt,
        editable := isEditable r.createdAt now }))

/-- Handler `getUserResponses` (lines 643-686): no validation of the
`user_identifier` path parameter; the query result is always returned
with 200 (an empty match list is a success). -/
def getUserResponses (st : Store) (now : Int) (uid : String) :
    Except SvcError (List UserResponse) :=
  .ok (userResponsesQuery st now uid)

/-- `Survey` as serialized, stripped of its derived count: the
underlying table row. -/
def surveyViewRow (v : Survey) : SurveyRow :=
  { id := v.id, title := v.title, description := v.description,
    createdAt := v.createdAt, updatedAt := v.updatedAt }

/-- The `responses_count` carried by a successful `createSurvey`
result, `none` on failure. -/
def createdResponsesCount (res : Except SvcError (Store × Survey)) : Option Nat :=
  match res with
  | .ok (_, out) => some out.responsesCount
  | .error _ => none

/-- A concrete database state for evaluation: one survey (id 2) created
at time 0, one response (id 1) to it by "testuser", created at time 0. -/
def sampleRow : ResponseRow :=
  { id := 1, surveyId := 2, userIdentifier := "testuser",
    responseData := "rating5", createdAt := 0, updatedAt := 0 }

/-- The store holding `sampleRow` and its parent survey. -/
def sampleStore : Store :=
  { surveys := [{ id := 2, title := "Test Survey",
                  description := "Test Description",
                  createdAt := 0, updatedAt := 0 }],
    responses := [sampleRow],
    nextSurveyId := 3, nextResponseId := 2 }

/-- C1: the editability policy is a strict 24-hour window.  A response
23h59m59s old is editable, one exactly 24h old is not; `getSurveyResponse`
annotates a found response with exactly `isEditable`; and
`updateSurveyResponse` rejects with `editWindowExpired` precisely when
`isEditable` is false for the found response. -/
theorem editWindow_strict_24h :
    (∀ T : Int,
        isEditable T (T + (23 * hourNs + 59 * minuteNs + 59 * secondNs)) = true
      ∧ isEditable T (T + 24 * hourNs) = false)
  ∧ (∀ st now sid rid r, findResponse st sid rid = some r →
        getSurveyResponse st now sid rid = .ok (responseView r now)
      ∧ (responseView r now).editable = isEditable r.createdAt now)
  ∧ (∀ st now sid rid payload r, findResponse st sid rid = some r →
        (updateSurveyResponse st now sid rid payload = .error .editWindowExpired
          ↔ isEditable r.createdAt now = false)) := by
  refine ⟨fun T => ⟨?_, ?_⟩, fun st now sid rid r h => ⟨?_, rfl⟩,
          fun st now sid rid payload r h => ?_⟩
  · simp only [isEditable, decide_eq_true_eq, hourNs, minuteNs, secondNs]
    omega
  · simp only [isEditable, decide_eq_false_iff_not, hourNs, minuteNs, secondNs]
    omega
  · unfold getSurveyResponse
    rw [h]
  · unfold updateSurveyResponse
    rw [h]
    by_cases hc : 24 * hourNs ≤ now - r.createdAt
    · simp only [if_pos hc, isEditable, decide_eq_false_iff_not]
      exact ⟨fun _ => by omega, fun _ => trivial⟩
    · simp only [if_neg hc, isEditable, decide_eq_false_iff_not]
      constructor
      · intro hres
        exfalso
        rcases payload with _ | rd?
        · simp at hres
        · rcases rd? with _ | v
          · simp [execUpdateResponse] at hres
          · simp only [execUpdateResponse] at hres
            split at hres <;> simp at hres
      · intro habs
        exact absurd (by omega : now - r.createdAt < 24 * hourNs) habs

/-- Witness for C1 at concrete inputs: creation time 0, the 24h boundary,
and the sample store's response. -/
theorem editWindow_strict_24h_witness :
    isEditable 0 (0 + 24 * hourNs) = false
  ∧ getSurveyResponse sampleStore 5 2 1 = .ok (responseView sampleRow 5)
  ∧ (updateSurveyResponse sampleStore (24 * hourNs) 2 1 .malformed
        = .error .editWindowExpired
      ↔ isEditable sampleRow.createdAt (24 * hourNs) = false) :=
  ⟨(editWindow_strict_24h.1 0).2,
   (editWindow_strict_24h.2.1 sampleStore 5 2 1 sampleRow rfl).1,
   editWindow_strict_24h.2.2 sampleStore (24 * hourNs) 2 1 .malformed sampleRow rfl⟩

/-- C3: on a response created 24 hours or more before `now`,
`updateSurveyResponse` fails with `editWindowExpired` and the store is
unchanged (no write occurs on this error path). -/
theorem updateResponse_expired_rejected (st : Store) (now : Int)
    (sid rid : Nat) (payload : Payload (Option String)) (r : ResponseRow)
    (hfind : findResponse st sid rid = some r)
    (hexp : 24 * hourNs ≤ now - r.createdAt) :
    updateSurveyResponse st now sid rid payload = .error .editWindowExpired
  ∧ resultStore st (updateSurveyResponse st now sid rid payload) = st := by
  have h1 : updateSurveyResponse st now sid rid payload
      = .error .editWindowExpired := by
    unfold updateSurveyResponse
    rw [hfind]
    simp only [if_pos hexp]
  exact ⟨h1, by rw [h1]; rfl⟩

/-- Witness for C3: the sample response (created at 0), updated at the
24h boundary with a well-formed payload carrying new data. -/
theorem updateResponse_expired_rejected_witness :
    updateSurveyResponse sampleStore (24 * hourNs) 2 1
        (.wellFormed (some "newdata")) = .error .editWindowExpired
  ∧ resultStore sampleStore
      (updateSurveyResponse sampleStore (24 * hourNs) 2 1
        (.wellFormed (some "newdata"))) = sampleStore :=
  updateResponse_expired_rejected sampleStore (24 * hourNs) 2 1
    (.wellFormed (some "newdata")) sampleRow rfl (by decide)

/-- C9: the edit-window check runs before the body is parsed, so on an
expired response every payload — malformed ones included — yields
`editWindowExpired`, never a structural-parse failure. -/
theorem updateResponse_expired_before_parse (st : Store) (now : Int)
    (sid rid : Nat) (r : ResponseRow)
    (hfind : findResponse st sid rid = some r)
    (hexp : 24 * hourNs ≤ now - r.createdAt) :
    ∀ payload, updateSurveyResponse st now sid rid payload
        = .error .editWindowExpired := by
  intro payload
  unfold updateSurveyResponse
  rw [hfind]
  simp only [if_pos hexp]

/-- Witness for C9: the sample response at the 24h boundary with a
malformed body still gets the edit-window rejection. -/
theorem updateResponse_expired_before_parse_witness :
    updateSurveyResponse sampleStore (24 * hourNs) 2 1 .malformed
      = .error .editWindowExpired :=
  updateResponse_expired_before_parse sampleStore (24 * hourNs) 2 1
    sampleRow rfl (by decide) .malformed

/-- Counterexample to C2: the sample response is editable at `now = 1`,
and the update payload supplies no `responseData`; the handler still
runs the UPDATE binding NULL for `response_data`, which the NOT NULL
column constraint rejects, so the call fails with a store error instead
of succeeding as a field-skipping no-op. -/
theorem updateResponse_absent_data_not_noop :
    updateSurveyResponse sampleStore 1 2 1 (.wellFormed none)
      = .error .storeError := rfl

/-- C2 amended: for every editable response, an update payload that
supplies no new `responseData` makes the UPDATE statement fail at the
store (NOT NULL constraint on `response_data`), so the call returns a
store error and the stored row keeps both its `responseData` and its
`updatedAt`. -/
theorem updateResponse_absent_data_store_rejects (st : Store) (now : Int)
    (sid rid : Nat) (r : ResponseRow)
    (hfind : findResponse st sid rid = some r)
    (hed : isEditable r.createdAt now = true) :
    updateSurveyResponse st now sid rid (.wellFormed none)
        = .error .storeError
  ∧ resultStore st (updateSurveyResponse st now sid rid (.wellFormed none))
        = st := by
  simp only [isEditable, decide_eq_true_eq] at hed
  have h1 : updateSurveyResponse st now sid rid (.wellFormed none)
      = .error .storeError := by
    unfold updateSurveyResponse
    rw [hfind]
    simp only [if_neg (show ¬ 24 * hourNs ≤ now - r.createdAt by omega)]
    rfl
  exact ⟨h1, by rw [h1]; rfl⟩

/-- Witness for the amended C2 at the sample store, one time unit after
creation. -/
theorem updateResponse_absent_data_store_rejects_witness :
    updateSurveyResponse sampleStore 1 2 1 (.wellFormed none)
        = .error .storeError
  ∧ resultStore sampleStore
      (updateSurveyResponse sampleStore 1 2 1 (.wellFormed none))
        = sampleStore :=
  updateResponse_absent_data_store_rejects sampleStore 1 2 1 sampleRow
    rfl (by decide)

/-- C4: `createSurveyResponse` against a survey id that exists in no
survey row fails with `notFound` and writes nothing; the existence check
runs before body parsing and validation, so this holds for every
payload, well-formed or not, valid or not. -/
theorem createResponse_missing_survey (st : Store) (now : Int) (sid : Nat)
    (payload : Payload (String × Option String))
    (h : surveyExists st sid = false) :
    createSurveyResponse st now sid payload = .error .notFound
  ∧ resultStore st (createSurveyResponse st now sid payload) = st := by
  have h1 : createSurveyResponse st now sid payload = .error .notFound := by
    unfold createSurveyResponse
    rw [h]
    rfl
  exact ⟨h1, by rw [h1]; rfl⟩

/-- Witness for C4: survey 99 does not exist in the sample store; the
payload's 2-character user identifier would also fail validation, yet
the result is `notFound`. -/
theorem createResponse_missing_survey_witness :
    createSurveyResponse sampleStore 5 99 (.wellFormed ("ab", some "d"))
        = .error .notFound
  ∧ resultStore sampleStore
      (createSurveyResponse sampleStore 5 99 (.wellFormed ("ab", some "d")))
        = sampleStore :=
  createResponse_missing_survey sampleStore 5 99
    (.wellFormed ("ab", some "d")) rfl

/-- Membership in a conditional singleton message list: the message is
collected exactly when its constraint fires. -/
theorem mem_if_singleton {c : Prop} [Decidable c] {m msg : String} :
    (msg ∈ if c then [m] else []) ↔ (msg = m ∧ c) := by
  by_cases h : c <;> simp [h]

/-- Counterexample to C5: "abc" has byte length 3 (in [3,255]) and ""
has byte length 0 (in [0,1000]), yet `createSurvey` does not succeed:
the `binding:"required"` tag rejects the empty-string `description` as a
zero value, so the request fails at the structural bind step. -/
theorem createSurvey_empty_description_not_created :
    "abc".utf8ByteSize = 3 ∧ "".utf8ByteSize = 0
  ∧ createSurvey sampleStore 9 (.wellFormed ("abc", "")) = .error .parseFailure :=
  ⟨rfl, rfl, rfl⟩

/-- C5 amended: for every title of byte length in [3,255] and every
NON-EMPTY description of byte length in [1,1000], `createSurvey`
succeeds and the returned survey carries `responsesCount = 0`; the
violation messages are exactly the applicable ones; and for non-empty
inputs violating a length constraint, it fails with all the collected
messages and no survey row is written.  (An empty description — length
0 — is rejected by the required-field binding before validation.) -/
theorem createSurvey_spec_amended :
    (∀ st : Store, ∀ now : Int, ∀ title description : String,
        3 ≤ title.utf8ByteSize → title.utf8ByteSize ≤ 255 →
        1 ≤ description.utf8ByteSize → description.utf8ByteSize ≤ 1000 →
        createdResponsesCount
            (createSurvey st now (.wellFormed (title, description)))
          = some 0)
  ∧ (∀ title description msg,
        msg ∈ validateSurvey title description ↔
          ((msg = "Title must be at least 3 characters long"
              ∧ title.utf8ByteSize < 3)
            ∨ (msg = "Title must be less than 255 characters"
                ∧ 255 < title.utf8ByteSize)
            ∨ (msg = "Description must be less than 1000 characters"
                ∧ 1000 < description.utf8ByteSize)))
  ∧ (∀ st : Store, ∀ now : Int, ∀ title description : String,
        title ≠ "" → description ≠ "" →
        validateSurvey title description ≠ [] →
        createSurvey st now (.wellFormed (title, description))
            = .error (.validationFailed (validateSurvey title description))
          ∧ resultStore st
              (createSurvey st now (.wellFormed (title, description))) = st) := by
  refine ⟨?_, ?_, ?_⟩
  · intro st now title description h3 h255 h1 h1000
    have ht : ¬ title = "" := by
      intro heq; rw [heq] at h3; simp [String.utf8ByteSize] at h3
    have hd : ¬ description = "" := by
      intro heq; rw [heq] at h1; simp [String.utf8ByteSize] at h1
    have hv : validateSurvey title description = [] := by
      unfold validateSurvey
      rw [if_neg (by omega), if_neg (by omega), if_neg (by omega)]
      rfl
    simp only [createSurvey]
    rw [if_neg (by simp [ht, hd])]
    simp [hv, createdResponsesCount]
  · intro title description msg
    simp only [validateSurvey, List.mem_append, mem_if_singleton]
    tauto
  · intro st now title description ht hd hval
    have h1 : createSurvey st now (.wellFormed (title, description))
        = .error (.validationFailed (validateSurvey title description)) := by
      simp only [createSurvey]
      rw [if_neg (by simp [ht, hd]),
          if_neg (by simpa [List.isEmpty_iff] using hval)]
    exact ⟨h1, by rw [h1]; rfl⟩

/-- Witness for the amended C5: a valid input succeeds with count 0, and
a 2-byte title fails with the collected messages, store unchanged. -/
theorem createSurvey_spec_amended_witness :
    createdResponsesCount
        (createSurvey sampleStore 7 (.wellFormed ("abc", "d"))) = some 0
  ∧ createSurvey sampleStore 7 (.wellFormed ("ab", "d"))
        = .error (.validationFailed (validateSurvey "ab" "d"))
  ∧ resultStore sampleStore
      (createSurvey sampleStore 7 (.wellFormed ("ab", "d"))) = sampleStore :=
  ⟨createSurvey_spec_amended.1 sampleStore 7 "abc" "d"
      (by decide) (by decide) (by decide) (by decide),
   (createSurvey_spec_amended.2.2 sampleStore 7 "ab" "d"
      (by decide) (by decide) (by decide)).1,
   (createSurvey_spec_amended.2.2 sampleStore 7 "ab" "d"
      (by decide) (by decide) (by decide)).2⟩

/-- C6: validation never short-circuits.  A payload whose title exceeds
255 bytes and whose description exceeds 1000 bytes yields both messages
together in one `validationFailed`; and each response-validation message
is present exactly when its constraint is violated, independently of the
other. -/
theorem validation_no_short_circuit :
    (∀ st : Store, ∀ now : Int, ∀ title description : String,
        255 < title.utf8ByteSize → 1000 < description.utf8ByteSize →
        createSurvey st now (.wellFormed (title, description))
          = .error (.validationFailed
              ["Title must be less than 255 characters",
               "Description must be less than 1000 characters"]))
  ∧ (∀ uid msg, msg ∈ validateResponseCreate uid ↔
        ((msg = "User identifier must be at least 3 characters long"
            ∧ uid.utf8ByteSize < 3)
          ∨ (msg = "User identifier must be less than 100 characters"
              ∧ 100 < uid.utf8ByteSize))) := by
  constructor
  · intro st now title description h255 h1000
    have ht : ¬ title = "" := by
      intro heq; rw [heq] at h255; simp [String.utf8ByteSize] at h255
    have hd : ¬ description = "" := by
      intro heq; rw [heq] at h1000; simp [String.utf8ByteSize] at h1000
    have hv : validateSurvey title description
        = ["Title must be less than 255 characters",
           "Description must be less than 1000 characters"] := by
      unfold validateSurvey
      rw [if_neg (by omega), if_pos h255, if_pos h1000]
      rfl
    simp only [createSurvey]
    rw [if_neg (by simp [ht, hd])]
    simp [hv]
  · intro uid msg
    simp only [validateResponseCreate, List.mem_append, mem_if_singleton]

set_option maxRecDepth 8192 in
/-- Witness for C6: a 256-byte title together with a 1001-byte
description produces exactly the two messages, in one list. -/
theorem validation_no_short_circuit_witness :
    createSurvey sampleStore 7
        (.wellFormed (String.mk (List.replicate 256 'a'),
                      String.mk (List.replicate 1001 'b')))
      = .error (.validationFailed
          ["Title must be less than 255 characters",
           "Description must be less than 1000 characters"]) :=
  validation_no_short_circuit.1 sampleStore 7
    (String.mk (List.replicate 256 'a'))
    (String.mk (List.replicate 1001 'b')) (by decide) (by decide)

/-- C7: the `getSurveyResponse` lookup is survey-scoped — when no stored
response has both the requested id and the requested survey id, the
result is `notFound`, even if the response id exists under another
survey. -/
theorem getResponse_survey_scoped (st : Store) (now : Int) (sid rid : Nat)
    (h : ∀ r ∈ st.responses, ¬ (r.id = rid ∧ r.surveyId = sid)) :
    getSurveyResponse st now sid rid = .error .notFound := by
  unfold getSurveyResponse findResponse
  rw [List.find?_eq_none.mpr (fun r hr => by
    simpa using h r hr)]

/-- Witness for C7: response 1 exists in the sample store, but under
survey 2; asking for it under survey 3 yields `notFound`. -/
theorem getResponse_survey_scoped_witness :
    getSurveyResponse sampleStore 5 3 1 = .error .notFound :=
  getResponse_survey_scoped sampleStore 5 3 1 (by decide)

/-- C8: `getSurveys` lists every survey, ordered by `createdAt`
descending, annotated with the count of responses referencing it; the
rows underlying the result are a permutation of the stored surveys, so
zero-response surveys are present (with count 0 by the count
definition), not excluded. -/
theorem listSurveys_ordered_counts (st : Store) :
    List.Pairwise (fun a b => b.createdAt ≤ a.createdAt) (getSurveys st)
  ∧ List.Perm ((getSurveys st).map surveyViewRow) st.surveys
  ∧ (∀ v ∈ getSurveys st, v.responsesCount = responsesCount st v.id)
  ∧ (∀ s ∈ st.surveys, ∃ v ∈ getSurveys st,
        v.id = s.id ∧ v.responsesCount = responsesCount st s.id) := by
  refine ⟨?_, ?_, ?_, ?_⟩
  · unfold getSurveys sortByKeyDesc
    rw [List.pairwise_map]
    exact List.sorted_insertionSort (keyGe SurveyRow.createdAt) st.surveys
  · have h1 : (getSurveys st).map surveyViewRow
        = sortByKeyDesc SurveyRow.createdAt st.surveys := by
      unfold getSurveys
      rw [List.map_map]
      exact List.map_id _
    rw [h1, sortByKeyDesc]
    exact List.perm_insertionSort _ _
  · intro v hv
    unfold getSurveys at hv
    rw [List.mem_map] at hv
    obtain ⟨s, _, rfl⟩ := hv
    rfl
  · intro s hs
    refine ⟨{ id := s.id, title := s.title, description := s.description,
              createdAt := s.createdAt, updatedAt := s.updatedAt,
              responsesCount := responsesCount st s.id }, ?_, rfl, rfl⟩
    unfold getSurveys
    exact List.mem_map.mpr
      ⟨s, by rw [sortByKeyDesc, List.mem_insertionSort]; exact hs, rfl⟩

/-- Witness for C8: the sample store's listing, with its underlying rows
a permutation of the stored table. -/
theorem listSurveys_ordered_counts_witness :
    List.Perm ((getSurveys sampleStore).map surveyViewRow)
      sampleStore.surveys :=
  (listSurveys_ordered_counts sampleStore).2.1

/-- `filterMap` over a list on which the function never drops an element
preserves the length. -/
theorem filterMap_length_of_isSome {α β : Type} {f : α → Option β} :
    ∀ {l : List α}, (∀ x ∈ l, (f x).isSome) →
      (l.filterMap f).length = l.length := by
  intro l
  induction l with
  | nil => intro _; rfl
  | cons x xs ih =>
    intro h
    obtain ⟨b, hb⟩ := Option.isSome_iff_exists.mp (h x (by simp))
    have hxs := ih (fun y hy => h y (List.mem_cons_of_mem _ hy))
    simp [List.filterMap_cons, hb, hxs]

/-- If the existence probe for a survey id answers true, the row lookup
finds a row. -/
theorem findSurvey_isSome_of_exists {st : Store} {sid : Nat}
    (h : surveyExists st sid = true) : (findSurvey st sid).isSome := by
  unfold surveyExists at h
  unfold findSurvey
  rw [List.find?_isSome]
  simpa [List.any_eq_true] using h

/-- C10: `getUserResponses` validates nothing about the user identifier
— for every string it succeeds with the query's result list; under the
creation-time invariant that every response references an existing
survey, that list holds exactly the responses whose stored
`userIdentifier` equals the argument (possibly none), never a
`validationFailed` or `notFound`. -/
theorem listResponsesByUser_no_validation (st : Store) (now : Int)
    (uid : String)
    (hinv : ∀ r ∈ st.responses, surveyExists st r.surveyId = true) :
    getUserResponses st now uid = .ok (userResponsesQuery st now uid)
  ∧ (userResponsesQuery st now uid).length
      = (st.responses.filter (fun r => r.userIdentifier = uid)).length
  ∧ (∀ u ∈ userResponsesQuery st now uid, u.userIdentifier = uid)
  ∧ (∀ r ∈ st.responses, r.userIdentifier = uid →
        ∃ u ∈ userResponsesQuery st now uid,
          u.id = r.id ∧ u.surveyId = r.surveyId
            ∧ u.responseData = r.responseData) := by
  refine ⟨rfl, ?_, ?_, ?_⟩
  · unfold userResponsesQuery
    rw [filterMap_length_of_isSome, sortByKeyDesc, List.length_insertionSort]
    intro r hr
    rw [sortByKeyDesc, List.mem_insertionSort] at hr
    have hr2 : r ∈ st.responses := (List.mem_filter.mp hr).1
    obtain ⟨s, hs⟩ := Option.isSome_iff_exists.mp
      (findSurvey_isSome_of_exists (hinv r hr2))
    simp [hs]
  · intro u hu
    unfold userResponsesQuery at hu
    rw [List.mem_filterMap] at hu
    obtain ⟨r, hr, hfr⟩ := hu
    rw [Option.map_eq_some'] at hfr
    obtain ⟨s, _, rfl⟩ := hfr
    rw [sortByKeyDesc, List.mem_insertionSort, List.mem_filter] at hr
    exact of_decide_eq_true hr.2
  · intro r hr hmatch
    have hrs : r ∈ sortByKeyDesc ResponseRow.updatedAt
        (st.responses.filter (fun x => x.userIdentifier = uid)) := by
      rw [sortByKeyDesc, List.mem_insertionSort]
      exact List.mem_filter.mpr ⟨hr, by simp [hmatch]⟩
    obtain ⟨s, hs⟩ := Option.isSome_iff_exists.mp
      (findSurvey_isSome_of_exists (hinv r hr))
    have hsid : s.id = r.surveyId := by
      have h2 : List.find? (fun x => x.id = r.surveyId) st.surveys = some s := hs
      simpa using List.find?_some h2
    refine ⟨{ id := r.id, surveyId := s.id, surveyTitle := s.title,
              surveyDescription := s.description,
              userIdentifier := r.userIdentifier,
              responseData := r.responseData, createdAt := r.createdAt,
              updatedAt := r.updatedAt,
              editable := isEditable r.createdAt now },
            List.mem_filterMap.mpr ⟨r, hrs, by rw [hs]; rfl⟩,
            rfl, hsid, rfl⟩

/-- Witness for C10 at the sample store: both for the stored identifier
"testuser" and for the 2-character identifier "ab" the call succeeds
with the query's result. -/
theorem listResponsesByUser_no_validation_witness :
    getUserResponses sampleStore 5 "testuser"
        = .ok (userResponsesQuery sampleStore 5 "testuser")
  ∧ (userResponsesQuery sampleStore 5 "testuser").length
      = (sampleStore.responses.filter
          (fun r => r.userIdentifier = "testuser")).length
  ∧ getUserResponses sampleStore 5 "ab"
        = .ok (userResponsesQuery sampleStore 5 "ab") :=
  ⟨(listResponsesByUser_no_validation sampleStore 5 "testuser"
      (by decide)).1,
   (listResponsesByUser_no_validation sampleStore 5 "testuser"
      (by decide)).2.1,
   (listResponsesByUser_no_validation sampleStore 5 "ab" (by decide)).1⟩

end SurveyForm
